import Mathlib

/-!
Shallow embedding of the Lake County ArcGIS query layer of project-zeno
(`src/api/lake_county_config.py`, `src/api/lake_county_service.py`,
`src/agent/tools/list_lake_county_projects.py`,
`src/agent/tools/list_lake_county_preapps.py`), together with theorems
settling the frozen claims about that layer.

Modelling conventions:
- Python `str` is `String`; `None`-able values are `Option _`.
- Python truthiness on a string is `s ≠ ""`; on an int it is `n ≠ 0`;
  `x.strip()` is `pyStrip`, `x.lower()` is `pyLower`,
  `x.replace("'", "''")` is `escapeQuotes` (kernel-reducible equivalents of
  the built-in string operations).
- The remote ArcGIS service is modelled as an oracle: either a pure map
  from a layer id to its stored feature rows (for the geometry-refinement
  claims, where both compared code paths query the same live service), or
  a function from (where-clause, requested row cap) to a response that can
  be a transport failure, an error-keyed payload, or a feature list.
- `asyncio.gather` over independent per-layer fetches is modelled as a
  sequential fold over the layer list; the per-claim hypotheses
  (disjoint identifier lists per layer) make the outcome order-independent.
-/

set_option autoImplicit false

namespace ProjectZeno

/-! ## Python string primitives

`str.strip`, `str.lower` and `str.replace("'", "''")` are modelled by
structural recursion over the character list so that the kernel can evaluate
them on concrete inputs (the built-in `String.trim`/`String.toLower` are
opaque to kernel reduction). ASCII behaviour coincides with Python's. -/

/-- Python `s.lower()` (ASCII case folding, as all vocabulary here is ASCII). -/
def pyLower (s : String) : String := String.mk (s.data.map Char.toLower)

/-- Python `s.strip()`: remove leading and trailing whitespace. -/
def pyStrip (s : String) : String :=
  String.mk (((s.data.dropWhile Char.isWhitespace).reverse.dropWhile
    Char.isWhitespace).reverse)

/-- Python `s.replace("'", "''")`: double every single-quote character
(code point 39). -/
def escapeQuotes (s : String) : String :=
  String.mk (s.data.foldr
    (fun c acc => if c = Char.ofNat 39 then c :: c :: acc else c :: acc) [])

/-! ## Configuration — `src/src/api/lake_county_config.py` -/

/-- `LAKE_COUNTY_SEARCH_LAYER_ID` (config line 60). -/
def LAKE_COUNTY_SEARCH_LAYER_ID : String := "project_representative_points"

/-- The `layer_id` keys of `LAKE_COUNTY_LAYERS_BY_ID` (config lines 14-57).
Only existence of a layer entry matters to the control flow we model. -/
def LAKE_COUNTY_LAYER_IDS : List String :=
  ["project_points", "project_areas", "project_lines", "project_representative_points"]

/-- `LAKE_COUNTY_LAYERS_BY_ID.get(lid)` is truthy iff `lid` is a configured key. -/
def layerConfigured (lid : String) : Bool := LAKE_COUNTY_LAYER_IDS.contains lid

/-- `GEOMETRY_TYPE_TO_LAYER` (config lines 81-86): maps the `Geometry`
discriminator attribute to the geometry layer id; `.get` on a missing key is `none`. -/
def GEOMETRY_TYPE_TO_LAYER (g : String) : Option String :=
  if g = "Polygon" then some "project_areas"
  else if g = "Point" then some "project_points"
  else if g = "Polyline" then some "project_lines"
  else if g = "Line" then some "project_lines"
  else none

/-- `JURISDICTION_ALIASES` (config line 75), as a keyed lookup. -/
def JURISDICTION_ALIASES (k : String) : Option String :=
  if k = "chicago" then some "North Chicago" else none

/-- `PROJECT_CATEGORY_PROJECTS` (config line 98). -/
def PROJECT_CATEGORY_PROJECTS : String := "projects"

/-- `PROJECT_CATEGORY_STUDIES` (config line 99). -/
def PROJECT_CATEGORY_STUDIES : String := "studies"

/-- `PROJECT_CATEGORY_FLOOD_AUDITS` (config line 100). -/
def PROJECT_CATEGORY_FLOOD_AUDITS : String := "flood_audits"

/-! ## Category predicate builder — `_project_category_where`
(service lines 95-112) -/

/-- The WHERE fragment returned for the "projects" category (service lines 104-107). -/
def PROJECTS_WHERE : String :=
  "(projectsubtype IS NULL OR projectsubtype <> 'Flood Audit') AND (is_study IS NULL OR is_study = 0)"

/-- The WHERE fragment returned for the "studies" category (service line 109). -/
def STUDIES_WHERE : String := "is_study = 1"

/-- The WHERE fragment returned for the "flood_audits" category (service line 111). -/
def FLOOD_AUDITS_WHERE : String := "projectsubtype = 'Flood Audit'"

/-- `_project_category_where(category)` (service lines 95-112): `None`/empty is
falsy; otherwise the stripped, lowercased selector is compared against the
three category constants. -/
def _project_category_where (category : Option String) : Option String :=
  match category with
  | none => none
  | some c0 =>
    if c0 = "" then none
    else
      let c := pyLower (pyStrip c0)
      if c = PROJECT_CATEGORY_PROJECTS then some PROJECTS_WHERE
      else if c = PROJECT_CATEGORY_STUDIES then some STUDIES_WHERE
      else if c = PROJECT_CATEGORY_FLOOD_AUDITS then some FLOOD_AUDITS_WHERE
      else none

/-- A primary-layer record restricted to the two fields the category WHERE
fragments mention: `projectsubtype` (text, nullable) and `is_study`
(numeric, nullable). -/
structure LCRecord where
  projectsubtype : Option String
  is_study : Option Int
deriving DecidableEq, Repr

/-- SQL evaluation of `PROJECTS_WHERE` over a record, with ArcGIS/SQL
three-valued logic: a comparison against NULL is not-true, and the explicit
`IS NULL` disjuncts make each conjunct true on NULL. Net effect:
`projectsubtype` is NULL or differs from `'Flood Audit'`, and `is_study` is
NULL or equals `0`. -/
def evalProjectsWhere (r : LCRecord) : Bool :=
  (match r.projectsubtype with
   | none => true
   | some s => decide (s ≠ "Flood Audit")) &&
  (match r.is_study with
   | none => true
   | some n => decide (n = 0))

/-- SQL evaluation of `STUDIES_WHERE` (`is_study = 1`): not-true on NULL. -/
def evalStudiesWhere (r : LCRecord) : Bool := r.is_study == some 1

/-- SQL evaluation of `FLOOD_AUDITS_WHERE` (`projectsubtype = 'Flood Audit'`):
not-true on NULL. -/
def evalFloodAuditsWhere (r : LCRecord) : Bool := r.projectsubtype == some "Flood Audit"

/-! ## Term resolver — `_resolve_value`
(`src/src/agent/tools/list_lake_county_projects.py` lines 29-40) -/

/-- Python `needle in haystack` (substring test) for a non-empty needle:
`splitOn` yields more than one piece iff the needle occurs. -/
def strContainsSub (haystack needle : String) : Bool :=
  (haystack.splitOn needle).length > 1

/-- `_resolve_value(user_value, domain_values)` (tool lines 29-40):
case-insensitive; prefer exact, then startswith-or-contains, scanning the
cached (sorted) vocabulary in order. -/
def _resolve_value (user_value : String) (domain_values : List String) : Option String :=
  if user_value = "" ∨ domain_values = [] then none
  else
    let uv := pyLower (pyStrip user_value)
    match domain_values.find? (fun d => pyLower d == uv) with
    | some d => some d
    | none =>
      domain_values.find? (fun d => uv.isPrefixOf (pyLower d) || strContainsSub (pyLower d) uv)

/-! ## Tool-side jurisdiction handling -/

/-- Jurisdiction normalisation in `list_lake_county_projects` (tool line 112):
blank-to-`None` stripping only — no alias lookup is performed in this tool. -/
def projectsToolJurisdiction (jurisdiction : Option String) : Option String :=
  match jurisdiction with
  | none => none
  | some j => if j = "" ∨ pyStrip j = "" then none else some (pyStrip j)

/-- Jurisdiction normalisation in `list_lake_county_preapps` (tool lines 59-64):
blank-to-`None` stripping, then `JURISDICTION_ALIASES.get(raw.lower(), raw)`. -/
def preappsToolJurisdiction (jurisdiction : Option String) : Option String :=
  match jurisdiction with
  | none => none
  | some j =>
    if j = "" ∨ pyStrip j = "" then none
    else
      let raw := pyStrip j
      some ((JURISDICTION_ALIASES (pyLower raw)).getD raw)

/-! ## Condition builders -/

/-- The `UPPER(field) LIKE UPPER('%…%')` containment condition used for
jurisdiction / ProjectPartners / Subshed and the preapps/concerns filters
(service lines 155-163, 505-510, 617-628): value is stripped and has single
quotes doubled. -/
def likeCondition (field v : String) : String :=
  "UPPER(" ++ field ++ ") LIKE UPPER('%" ++ (escapeQuotes (pyStrip v)) ++ "%')"

/-- The `UPPER(field) = UPPER('…')` equality condition used for status and
ProjectStatus (service lines 149-154). -/
def eqCondition (field v : String) : String :=
  "UPPER(" ++ field ++ ") = UPPER('" ++ (escapeQuotes (pyStrip v)) ++ "')"

/-- The condition list built by `query_lake_county_projects`
(service lines 138-163), in source order: category fragment, projecttype
IN-clause, status, ProjectStatus, jurisdiction, ProjectPartners, Subshed.
A `None` or blank filter contributes nothing. -/
def projectsConditions (status project_status : Option String)
    (project_types : Option (List String))
    (jurisdiction project_partners subshed : Option String)
    (project_category : Option String) : List String :=
  let catConds : List String :=
    match _project_category_where project_category with
    | some cw => ["(" ++ cw ++ ")"]
    | none => []
  let typeConds : List String :=
    match project_types with
    | some ts =>
      if 0 < ts.length then
        let safe_types := (ts.filter (fun t => t ≠ "" && pyStrip t ≠ "")).map
          (fun t => escapeQuotes (pyStrip t))
        if safe_types.isEmpty then []
        else ["projecttype IN (" ++
              String.intercalate "," (safe_types.map (fun t => "'" ++ t ++ "'")) ++ ")"]
      else []
    | none => []
  let statusConds : List String :=
    match status with
    | some s => if s ≠ "" && pyStrip s ≠ "" then [eqCondition "status" s] else []
    | none => []
  let psConds : List String :=
    match project_status with
    | some s => if s ≠ "" && pyStrip s ≠ "" then [eqCondition "ProjectStatus" s] else []
    | none => []
  let jurConds : List String :=
    match jurisdiction with
    | some s => if s ≠ "" && pyStrip s ≠ "" then [likeCondition "jurisdiction" s] else []
    | none => []
  let partConds : List String :=
    match project_partners with
    | some s => if s ≠ "" && pyStrip s ≠ "" then [likeCondition "ProjectPartners" s] else []
    | none => []
  let subConds : List String :=
    match subshed with
    | some s => if s ≠ "" && pyStrip s ≠ "" then [likeCondition "Subshed" s] else []
    | none => []
  catConds ++ typeConds ++ statusConds ++ psConds ++ jurConds ++ partConds ++ subConds

/-! ## Feature and result data model -/

/-- A feature row of a secondary geometry layer (Areas/Lines/Points), as
returned by a geometry query: its `project_id` property (nullable) and its
GeoJSON geometry (`none` models a `null` geometry). Geometry payloads are
opaque tokens; a present payload is a non-empty (truthy) object. -/
structure GFeature where
  project_id : Option Int
  geom : Option String
deriving DecidableEq, Repr

/-- A feature row of a primary layer (Representative Points / PreApp points /
CIRS points): its identifier property (`project_id` or `preapp_id`), the
`Geometry` discriminator attribute (projects only), its own inline geometry,
and that geometry's `type` tag (used by the preapps assembly). -/
structure PFeature where
  project_id : Option Int
  geometryAttr : Option String
  geom : Option String
  geomType : Option String
deriving DecidableEq, Repr

/-- An assembled match (service lines 229-235 / 588-594). The Python
`geojson` key is the derived value `geometry_geojson or rep_point_geojson`
and is not carried separately here. -/
structure LCMatch where
  attributes : PFeature
  rep_point_geojson : Option (List PFeature)
  geometry_geojson : Option (List GFeature)
  geometry : Option String
deriving DecidableEq, Repr

/-- The result dict shape shared by the query functions: `found`, the
`matches` key (named `matchList` here because `matches` is reserved in
Lean), `limit_exceeded`, and the optional `message` key (present only on the
"No filters provided." early exit). -/
structure LCQueryResult where
  found : Bool
  matchList : List LCMatch
  limit_exceeded : Bool
  message : Option String
deriving DecidableEq, Repr

/-- The `found=False` result every remote-failure branch returns
(service lines 194, 198, 532, 536, 650, 654). -/
def emptyFailResult : LCQueryResult :=
  { found := false, matchList := [], limit_exceeded := false, message := none }

/-- Outcome of one primary-layer HTTP query: a raised transport error
(timeout, connection failure, or non-2xx via `raise_for_status`), or a JSON
payload with an optional `error` key and a `features` list. -/
inductive RemoteResp where
  | transportError
  | payload (hasError : Bool) (features : List PFeature)
deriving DecidableEq, Repr

/-- A primary remote response that the service treats as a failure:
either a transport error or a payload carrying the `error` sentinel key. -/
def remoteFails (resp : RemoteResp) : Prop :=
  resp = RemoteResp.transportError ∨ ∃ feats, resp = RemoteResp.payload true feats

/-! ## Batch geometry resolution — `_batch_fetch_geometries`
(service lines 322-371) and `_fetch_project_geometry` (lines 293-319).

The remote geometry layers are modelled as a pure oracle
`layers : String → List GFeature` giving each layer's stored rows in a fixed
order; a query returns the rows matching its WHERE clause in that order,
truncated to the requested `resultRecordCount`. -/

/-- Evaluation of `project_id IN (pids)` on one stored row: a NULL
`project_id` matches nothing. -/
def pidInList (f : GFeature) (pids : List Int) : Bool :=
  match f.project_id with
  | some p => pids.contains p
  | none => false

/-- The rows returned by the batched POST for one layer
(service lines 340-351): `where project_id IN (pids)`, capped by
`resultRecordCount = 2000`. -/
def fetchLayerFeatures (layers : String → List GFeature) (lid : String)
    (pids : List Int) : List GFeature :=
  ((layers lid).filter (fun f => pidInList f pids)).take 2000

/-- `_fetch_project_geometry(client, project_id, geom_type)`
(service lines 293-319): resolve the discriminator to a layer (falsy
discriminator resolves to `None`), query `project_id = …`, and return
`None` when the layer is unknown or no features come back. -/
def _fetch_project_geometry (layers : String → List GFeature)
    (project_id : Int) (geom_type : String) : Option (List GFeature) :=
  match (if geom_type ≠ "" then GEOMETRY_TYPE_TO_LAYER geom_type else none) with
  | none => none
  | some layer_id =>
    if layerConfigured layer_id then
      let features := (layers layer_id).filter (fun f => f.project_id == some project_id)
      if features.isEmpty then none else some features
    else none

/-- `result.setdefault(pid, …)["features"].append(feat)`
(service lines 358-364): append a feature to the entry keyed `p`, creating
the entry at the end when absent. -/
def addGeomFeature : List (Int × List GFeature) → Int → GFeature → List (Int × List GFeature)
  | [], p, f => [(p, [f])]
  | (q, fs) :: rest, p, f =>
    if q = p then (q, fs ++ [f]) :: rest
    else (q, fs) :: addGeomFeature rest p f

/-- Merge one layer's response features into the accumulated per-identifier
map, skipping features whose `project_id` property is `None`
(service lines 358-364). -/
def mergeLayerFeatures (acc : List (Int × List GFeature)) (feats : List GFeature) :
    List (Int × List GFeature) :=
  feats.foldl (fun a f =>
    match f.project_id with
    | some q => addGeomFeature a q f
    | none => a) acc

/-- One `_fetch_layer` invocation of `_batch_fetch_geometries`
(service lines 333-364): an entry with an empty identifier list is filtered
out of the `gather` (no coroutine, no POST), `_fetch_layer` returns before
its POST when the layer id is not configured, and otherwise the layer's
batched response is merged into the shared map. -/
def batchStep (layers : String → List GFeature)
    (acc : List (Int × List GFeature)) (e : String × List Int) :
    List (Int × List GFeature) :=
  if e.2.isEmpty then acc
  else if ¬ layerConfigured e.1 then acc
  else mergeLayerFeatures acc (fetchLayerFeatures layers e.1 e.2)

/-- `_batch_fetch_geometries(client, project_ids_by_layer)`
(service lines 322-371): one batched query per (layer, identifier-list)
entry, merged into one map keyed by identifier. The concurrent `gather` is
modelled as a fold in entry order. -/
def _batch_fetch_geometries (layers : String → List GFeature)
    (project_ids_by_layer : List (String × List Int)) : List (Int × List GFeature) :=
  project_ids_by_layer.foldl (batchStep layers) []

/-- The feature list accumulated for identifier `p` (empty when the map has
no entry for `p`). -/
def listByPid (m : List (Int × List GFeature)) (p : Int) : List GFeature :=
  ((m.find? (fun e => e.1 == p)).map (fun e => e.2)).getD []

/-- Wrap a feature list the way `_fetch_project_geometry` reports it:
`none` when empty, `some` otherwise. -/
def optOfList (l : List GFeature) : Option (List GFeature) :=
  if l.isEmpty then none else some l

/-- A record references geometry layer `lid`: its `project_id` and
`Geometry` discriminator are truthy and the discriminator maps to `lid`
(the condition under which the grouping loop files the record under `lid`). -/
def refsLayerB (feat : PFeature) (lid : String) : Bool :=
  match feat.project_id, feat.geometryAttr with
  | some p, some g =>
    decide (p ≠ 0) && decide (g ≠ "") && (GEOMETRY_TYPE_TO_LAYER g == some lid)
  | _, _ => false

/-- The number of HTTP POSTs `_batch_fetch_geometries` issues: one per
entry whose identifier list is non-empty and whose layer id is configured. -/
def batchCallCount (project_ids_by_layer : List (String × List Int)) : Nat :=
  (project_ids_by_layer.filter
    (fun e => !e.2.isEmpty && layerConfigured e.1)).length

/-- `geom_by_pid.get(pid)` — first-entry lookup in the merged map. -/
def geomByPid (m : List (Int × List GFeature)) (p : Int) : Option (List GFeature) :=
  (m.find? (fun e => e.1 == p)).map (fun e => e.2)

/-- `project_ids_by_layer.setdefault(layer_id, []).append(project_id)`
(service line 212): append `p` to the first entry keyed `lid`, creating the
entry at the end when absent. -/
def appendToLayer : List (String × List Int) → String → Int → List (String × List Int)
  | [], lid, p => [(lid, [p])]
  | (l, ps) :: rest, lid, p =>
    if l = lid then (l, ps ++ [p]) :: rest
    else (l, ps) :: appendToLayer rest lid p

/-- One step of the grouping loop (service lines 205-212): a record with a
truthy `project_id` and a truthy `Geometry` discriminator that resolves to a
layer id contributes its identifier to that layer's list. -/
def stepGroup (acc : List (String × List Int)) (feat : PFeature) :
    List (String × List Int) :=
  match feat.project_id, feat.geometryAttr with
  | some p, some g =>
    if p ≠ 0 ∧ g ≠ "" then
      match GEOMETRY_TYPE_TO_LAYER g with
      | some lid => appendToLayer acc lid p
      | none => acc
    else acc
  | _, _ => acc

/-- `project_ids_by_layer` built by `query_lake_county_projects`
(service lines 203-212). -/
def project_ids_by_layer (features : List PFeature) : List (String × List Int) :=
  features.foldl stepGroup []

/-! ## Result assembly — three-tier geometry fallback
(service lines 224-228 and 582-586) -/

/-- The geometry chosen for one match: the first feature's geometry from the
batch-map entry when that entry is present with a non-empty feature list and
that feature carries a geometry; otherwise the record's own representative
geometry (which may itself be absent). -/
def resolveGeometry (geometry_geojson : Option (List GFeature))
    (rep_geom : Option String) : Option String :=
  let g0 : Option String :=
    match geometry_geojson with
    | some (f :: _) => f.geom
    | _ => none
  match g0 with
  | some g => some g
  | none => rep_geom

/-- The three-tier fallback exactly as the spec words it: secondary geometry
from the batch map when present and non-empty (i.e. it yields a geometry);
otherwise the inline representative geometry when the remote returned one;
otherwise null. -/
def specThreeTier (geometry_geojson : Option (List GFeature))
    (rep_geom : Option String) : Option String :=
  match (match geometry_geojson with
         | some (f :: _) => f.geom
         | _ => none) with
  | some g => some g
  | none =>
    match rep_geom with
    | some r => some r
    | none => none

/-! ## PreApps query — `query_lake_county_preapps` (service lines 491-596) -/

/-- The WHERE clause built by `query_lake_county_preapps`
(service lines 504-512): the unconditional archived exclusion, then the
optional jurisdiction and Subshed containment filters, joined with AND. -/
def preappsWhere (jurisdiction subshed : Option String) : String :=
  let conditions := ["status <> 'Archived'"]
    ++ (match jurisdiction with
        | some s => if s ≠ "" && pyStrip s ≠ "" then [likeCondition "jurisdiction" s] else []
        | none => [])
    ++ (match subshed with
        | some s => if s ≠ "" && pyStrip s ≠ "" then [likeCondition "Subshed" s] else []
        | none => [])
  String.intercalate " AND " conditions

/-- `geom_by_pid.get(project_id) if project_id else None`
(service lines 223 and 581): a falsy (absent or zero) identifier looks
nothing up. -/
def geomForRecord (geom_by_pid : List (Int × List GFeature)) (feat : PFeature) :
    Option (List GFeature) :=
  match feat.project_id with
  | some p => if p ≠ 0 then geomByPid geom_by_pid p else none
  | none => none

/-- The preapps batched geometry map (service lines 541-571): no request at
all when the identifier list is empty; a transport failure (`none` response)
leaves the map empty; otherwise response features are merged by their
`preapp_id` property (carried in `GFeature.project_id`). This block checks no
`error` key. -/
def preappGeomMap (preapp_ids : List Int)
    (geomRemote : List Int → Option (List GFeature)) : List (Int × List GFeature) :=
  if preapp_ids.isEmpty then []
  else
    match geomRemote preapp_ids with
    | none => []
    | some gfeats => mergeLayerFeatures [] gfeats

/-- One preapp match (service lines 574-594): the representative point
collection exists only when the record's own geometry is present with type
`Point`; the chosen geometry follows the batch-then-inline fallback. -/
def assemblePreappMatch (geom_by_preapp : List (Int × List GFeature))
    (feat : PFeature) : LCMatch :=
  let geometry_geojson := geomForRecord geom_by_preapp feat
  { attributes := feat
    rep_point_geojson :=
      if feat.geom ≠ none ∧ feat.geomType = some "Point" then some [feat] else none
    geometry_geojson := geometry_geojson
    geometry := resolveGeometry geometry_geojson feat.geom }

/-- `query_lake_county_preapps(jurisdiction, subshed, limit)`
(service lines 491-596). The primary remote call requests `limit + 1` rows;
any transport failure or an `error` key yields the empty `found=False`
result; otherwise the rows are truncated to `limit`, preapp geometries are
batch-fetched in one POST, and matches are assembled in row order. -/
def query_lake_county_preapps (jurisdiction subshed : Option String) (limit : Nat)
    (remote : String → Nat → RemoteResp)
    (geomRemote : List Int → Option (List GFeature)) : LCQueryResult :=
  let whereClause := preappsWhere jurisdiction subshed
  match remote whereClause (limit + 1) with
  | RemoteResp.transportError => emptyFailResult
  | RemoteResp.payload hasError feats =>
    if hasError then emptyFailResult
    else
      let limit_exceeded := decide (limit < feats.length)
      let features := feats.take limit
      let preapp_ids := features.filterMap (fun f => f.project_id)
      let geom_by_preapp := preappGeomMap preapp_ids geomRemote
      { found := true
        matchList := features.map (assemblePreappMatch geom_by_preapp)
        limit_exceeded := limit_exceeded
        message := none }

/-! ## Projects query — `query_lake_county_projects` (service lines 115-237) -/

def MAX_LIST_PROJECTS : Nat := 50
def MAX_PROJECTS_SEMANTIC_SEARCH : Nat := 200
def MAX_PROJECTS_BY_CATEGORY : Nat := 1000

/-- The test on service line 171: `project_category and
project_category.lower() in (projects, studies, flood_audits)` (no
stripping here, unlike `_project_category_where`). -/
def categoryLimitActive (project_category : Option String) : Bool :=
  match project_category with
  | some pc =>
    pc ≠ "" &&
      (pyLower pc == PROJECT_CATEGORY_PROJECTS ||
       pyLower pc == PROJECT_CATEGORY_STUDIES ||
       pyLower pc == PROJECT_CATEGORY_FLOOD_AUDITS)
  | none => false

/-- What `query_lake_county_projects` decides before touching the network
(service lines 134-182): bail out when the search layer is unconfigured,
short-circuit with the "No filters provided." message when no condition was
built and unfiltered queries are not allowed, and otherwise fix the WHERE
clause and the effective row cap for the remote request. -/
inductive ProjectsPlan where
  | noLayer (r : LCQueryResult)
  | earlyExit (r : LCQueryResult)
  | remoteQuery (whereClause : String) (effective_limit : Nat)
deriving DecidableEq, Repr

/-- The pre-network phase of `query_lake_county_projects`
(service lines 134-182). -/
def projectsPlan (status project_status : Option String)
    (project_types : Option (List String))
    (jurisdiction project_partners subshed project_category : Option String)
    (limit : Nat) (allow_no_filters : Bool) : ProjectsPlan :=
  if ¬ layerConfigured LAKE_COUNTY_SEARCH_LAYER_ID then
    ProjectsPlan.noLayer emptyFailResult
  else
    let conditions := projectsConditions status project_status project_types
      jurisdiction project_partners subshed project_category
    if conditions.isEmpty ∧ ¬ allow_no_filters then
      ProjectsPlan.earlyExit
        { found := false, matchList := [], limit_exceeded := false
          message := some "No filters provided." }
    else
      let whereClause :=
        if conditions.isEmpty then "1=1" else String.intercalate " AND " conditions
      let effective_limit :=
        if allow_no_filters ∧ conditions.isEmpty then MAX_PROJECTS_SEMANTIC_SEARCH
        else if categoryLimitActive project_category then max limit MAX_PROJECTS_BY_CATEGORY
        else limit
      ProjectsPlan.remoteQuery whereClause effective_limit

/-- One project match (service lines 217-235): the representative point
collection always wraps the primary feature; the chosen geometry follows the
batch-then-inline fallback. -/
def assembleProjectMatch (geom_by_pid : List (Int × List GFeature))
    (feat : PFeature) : LCMatch :=
  let geometry_geojson := geomForRecord geom_by_pid feat
  { attributes := feat
    rep_point_geojson := some [feat]
    geometry_geojson := geometry_geojson
    geometry := resolveGeometry geometry_geojson feat.geom }

/-- `query_lake_county_projects` (service lines 115-237), the full pipeline:
the pre-network plan, then on `remoteQuery` the primary call with
`effective_limit + 1` requested rows, failure handling, truncation, the
grouped batch geometry fetch, and assembly in row order. The geometry-layer
oracle `layers` is the pure remote model used by `_batch_fetch_geometries`. -/
def query_lake_county_projects (status project_status : Option String)
    (project_types : Option (List String))
    (jurisdiction project_partners subshed project_category : Option String)
    (limit : Nat) (allow_no_filters : Bool)
    (remote : String → Nat → RemoteResp)
    (layers : String → List GFeature) : LCQueryResult :=
  match projectsPlan status project_status project_types jurisdiction
      project_partners subshed project_category limit allow_no_filters with
  | ProjectsPlan.noLayer r => r
  | ProjectsPlan.earlyExit r => r
  | ProjectsPlan.remoteQuery whereClause effective_limit =>
    match remote whereClause (effective_limit + 1) with
    | RemoteResp.transportError => emptyFailResult
    | RemoteResp.payload hasError feats =>
      if hasError then emptyFailResult
      else
        let limit_exceeded := decide (effective_limit < feats.length)
        let features := feats.take effective_limit
        let geom_by_pid := _batch_fetch_geometries layers (project_ids_by_layer features)
        { found := true
          matchList := features.map (assembleProjectMatch geom_by_pid)
          limit_exceeded := limit_exceeded
          message := none }

/-! ## Concerns query — `query_lake_county_concerns` (service lines 602-672) -/

/-- The WHERE clause built by `query_lake_county_concerns`
(service lines 616-630). -/
def concernsWhere (jurisdiction category_report problem frequency_problem :
    Option String) : String :=
  let conditions := ["status_CIRS <> 'Archived'"]
    ++ (match jurisdiction with
        | some s => if s ≠ "" && pyStrip s ≠ "" then [likeCondition "jurisdiction" s] else []
        | none => [])
    ++ (match category_report with
        | some s => if s ≠ "" && pyStrip s ≠ "" then [likeCondition "category_report" s] else []
        | none => [])
    ++ (match problem with
        | some s => if s ≠ "" && pyStrip s ≠ "" then [likeCondition "problem" s] else []
        | none => [])
    ++ (match frequency_problem with
        | some s => if s ≠ "" && pyStrip s ≠ "" then [likeCondition "frequency_problem" s] else []
        | none => [])
  String.intercalate " AND " conditions

/-- `query_lake_county_concerns` (service lines 602-672): same failure
handling and truncation as the other executors; point geometry only, no
secondary geometry fetch. -/
def query_lake_county_concerns
    (jurisdiction category_report problem frequency_problem : Option String)
    (limit : Nat) (remote : String → Nat → RemoteResp) : LCQueryResult :=
  let whereClause := concernsWhere jurisdiction category_report problem frequency_problem
  match remote whereClause (limit + 1) with
  | RemoteResp.transportError => emptyFailResult
  | RemoteResp.payload hasError feats =>
    if hasError then emptyFailResult
    else
      let limit_exceeded := decide (limit < feats.length)
      let features := feats.take limit
      { found := true
        matchList := features.map (fun feat =>
          { attributes := feat
            rep_point_geojson := some [feat]
            geometry_geojson := none
            geometry := feat.geom })
        limit_exceeded := limit_exceeded
        message := none }

/-! ## Vocabulary cache — `fetch_lake_county_domains` (service lines 30-87) -/

def DOMAIN_FIELDS : List String := ["status", "ProjectStatus", "jurisdiction"]

def DOMAINS_CACHE_TTL : Nat := 600

/-- The module-level cache (`_domains_cache`, `_domains_cache_ts`,
service lines 32-33), with the monotonic clock modelled as a `Nat`. -/
structure DomainsCacheState where
  domains_cache : Option (List (String × List String))
  domains_cache_ts : Nat
deriving DecidableEq, Repr

/-- Outcome of one per-field distinct-value fetch (`_fetch_domain`,
service lines 54-79): a raised transport error, an `error`-keyed payload, or
the field's attribute value for each returned feature (`none` = null). -/
inductive FieldFetchOutcome where
  | fail
  | errorKey
  | ok (values : List (Option String))
deriving DecidableEq, Repr

/-- Python `sorted(set(values))` over strings. -/
def sortedDedup (values : List String) : List String :=
  List.insertionSort (fun a b => a ≤ b) values.dedup

/-- The value list `_fetch_domain` produces for one field: empty on failure
or remote-reported error; otherwise the non-null, non-blank stripped
attribute values, de-duplicated and sorted (service lines 63-79). -/
def domainValues : FieldFetchOutcome → List String
  | FieldFetchOutcome.fail => []
  | FieldFetchOutcome.errorKey => []
  | FieldFetchOutcome.ok vs =>
    sortedDedup (vs.filterMap (fun v =>
      match v with
      | some s => if pyStrip s ≠ "" then some (pyStrip s) else none
      | none => none))

/-- The refresh path of `fetch_lake_county_domains` (service lines 47-87):
one concurrent fetch per `DOMAIN_FIELDS` entry, then the whole module cache
is replaced by this round's result and the timestamp is reset. An
unconfigured search layer returns `{}` without touching the cache. -/
def refreshDomains (st : DomainsCacheState) (now : Nat)
    (outcomes : String → FieldFetchOutcome) :
    (List (String × List String)) × DomainsCacheState :=
  if ¬ layerConfigured LAKE_COUNTY_SEARCH_LAYER_ID then ([], st)
  else
    let result := DOMAIN_FIELDS.map (fun f => (f, domainValues (outcomes f)))
    (result, { domains_cache := some result, domains_cache_ts := now })

/-- `fetch_lake_county_domains()` (service lines 37-87): return the cached
snapshot while it is younger than the TTL, otherwise refresh. -/
def fetch_lake_county_domains (st : DomainsCacheState) (now : Nat)
    (outcomes : String → FieldFetchOutcome) :
    (List (String × List String)) × DomainsCacheState :=
  match st.domains_cache with
  | some c =>
    if now - st.domains_cache_ts < DOMAINS_CACHE_TTL then (c, st)
    else refreshDomains st now outcomes
  | none => refreshDomains st now outcomes

/-- `.get(field)` on the cached domains mapping. -/
def domGet (c : List (String × List String)) (f : String) : Option (List String) :=
  (c.find? (fun e => e.1 == f)).map (fun e => e.2)

/-! ## Concrete fixtures used to instantiate hypotheses -/

/-- Fixture: three matched records whose discriminators reference the
polygon, point and line layers respectively ("Line" exercises the Polyline
synonym spelling). -/
def demoProjectFeatures : List PFeature :=
  [{ project_id := some 1, geometryAttr := some "Polygon"
     geom := some "rp1", geomType := some "Point" },
   { project_id := some 2, geometryAttr := some "Point"
     geom := some "rp2", geomType := some "Point" },
   { project_id := some 3, geometryAttr := some "Line"
     geom := some "rp3", geomType := some "Point" }]

/-- Fixture: stored rows of the geometry layers (record 2 has two features,
record 3 has none and will fall back downstream). -/
def demoGeometryLayers (lid : String) : List GFeature :=
  if lid = "project_areas" then [{ project_id := some 1, geom := some "areaPoly1" }]
  else if lid = "project_points" then
    [{ project_id := some 2, geom := some "pointGeom2" },
     { project_id := some 2, geom := some "pointGeom2b" }]
  else []

/-! # Theorems settling the claims -/

/-! ## C3 — category predicate disjointness -/

/-- C3, counterexample: the claim says the three category predicates built by
`_project_category_where` are pairwise disjoint for every assignment of
`projectsubtype` and `is_study`. It is false: a record with
`projectsubtype = 'Flood Audit'` and `is_study = 1` satisfies both the
"studies" predicate (`is_study = 1`) and the "flood_audits" predicate
(`projectsubtype = 'Flood Audit'`) simultaneously. -/
theorem C3_studies_flood_overlap :
    _project_category_where (some "studies") = some STUDIES_WHERE ∧
    _project_category_where (some "flood_audits") = some FLOOD_AUDITS_WHERE ∧
    evalStudiesWhere ⟨some "Flood Audit", some 1⟩ = true ∧
    evalFloodAuditsWhere ⟨some "Flood Audit", some 1⟩ = true := by
  refine ⟨by decide, by decide, by decide, by decide⟩

/-- C3, amended: the "projects" predicate is disjoint from each of the other
two for every record, and the "studies" and "flood_audits" predicates
overlap exactly on the records with `is_study = 1` and
`projectsubtype = 'Flood Audit'` (values the remote service is not expected
to produce, but nothing in the predicates rules them out). -/
theorem C3_category_disjointness (r : LCRecord) :
    (¬ (evalProjectsWhere r = true ∧ evalStudiesWhere r = true)) ∧
    (¬ (evalProjectsWhere r = true ∧ evalFloodAuditsWhere r = true)) ∧
    ((evalStudiesWhere r = true ∧ evalFloodAuditsWhere r = true) ↔
      (r.is_study = some 1 ∧ r.projectsubtype = some "Flood Audit")) := by
  obtain ⟨ps, st⟩ := r
  cases ps with
  | none =>
    cases st with
    | none => simp [evalProjectsWhere, evalStudiesWhere, evalFloodAuditsWhere]
    | some n =>
      simp [evalProjectsWhere, evalStudiesWhere, evalFloodAuditsWhere]
      omega
  | some s =>
    cases st with
    | none => simp [evalProjectsWhere, evalStudiesWhere, evalFloodAuditsWhere]
    | some n =>
      by_cases hs : s = "Flood Audit"
      · simp [evalProjectsWhere, evalStudiesWhere, evalFloodAuditsWhere, hs]
      · simp [evalProjectsWhere, evalStudiesWhere, evalFloodAuditsWhere, hs]
        omega

/-! ## C5 — three-tier geometry fallback -/

/-- `resolveGeometry` coincides with the spec-side three-tier fallback. -/
theorem resolveGeometry_eq_specThreeTier (gj : Option (List GFeature))
    (rep : Option String) : resolveGeometry gj rep = specThreeTier gj rep := by
  unfold resolveGeometry specThreeTier
  cases gj with
  | none => cases rep <;> rfl
  | some l =>
    cases l with
    | nil => cases rep <;> rfl
    | cons f fs =>
      cases hf : f.geom
      · cases rep <;> simp [hf]
      · cases rep <;> simp [hf]

/-- C5: for every matched record assembled by the projects or preapps
pipeline, the chosen geometry follows the three-tier fallback exactly:
the first feature's geometry from the record's batch-map entry when that
entry is present, non-empty and yields a geometry; otherwise the record's
inline representative geometry when the remote returned one; otherwise
null. -/
theorem C5_assembled_geometry_three_tier :
    (∀ (m : List (Int × List GFeature)) (feat : PFeature),
      (assembleProjectMatch m feat).geometry =
        specThreeTier (geomForRecord m feat) feat.geom) ∧
    (∀ (m : List (Int × List GFeature)) (feat : PFeature),
      (assemblePreappMatch m feat).geometry =
        specThreeTier (geomForRecord m feat) feat.geom) := by
  constructor
  · intro m feat
    exact resolveGeometry_eq_specThreeTier (geomForRecord m feat) feat.geom
  · intro m feat
    exact resolveGeometry_eq_specThreeTier (geomForRecord m feat) feat.geom

/-! ## C9 — exact-match precedence in the term resolver -/

/-- C9: for a non-empty vocabulary containing an entry that equals the
(stripped) user term up to case, `_resolve_value` returns such an entry via
its exact-match pass: the result is a vocabulary member whose lowercase form
is the lowercased stripped term, never a mere prefix/substring match. -/
theorem C9_exact_match_precedence (term : String) (vocab : List String) (d : String)
    (hterm : term ≠ "") (hd : d ∈ vocab)
    (hmatch : pyLower d = pyLower (pyStrip term)) :
    ∃ r, _resolve_value term vocab = some r ∧ r ∈ vocab ∧
      pyLower r = pyLower (pyStrip term) := by
  have hvocab : vocab ≠ [] := by
    intro h
    rw [h] at hd
    cases hd
  have hsome : (vocab.find? (fun x => pyLower x == pyLower (pyStrip term))).isSome := by
    rw [List.find?_isSome]
    exact ⟨d, hd, by simp [hmatch]⟩
  obtain ⟨r, hr⟩ := Option.isSome_iff_exists.mp hsome
  refine ⟨r, ?_, List.mem_of_find?_eq_some hr, ?_⟩
  · unfold _resolve_value
    rw [if_neg (by simp [hterm, hvocab])]
    simp only [hr]
  · have := List.find?_some hr
    simpa using this

/-- C9 witness: "active" resolves to the exact vocabulary entry "Active"
even though "Active Construction" precedes it and also matches by prefix. -/
theorem C9_exact_match_precedence_witness :
    ∃ r, _resolve_value "active" ["Active Construction", "Active"] = some r ∧
      r ∈ ["Active Construction", "Active"] ∧
      pyLower r = pyLower (pyStrip "active") :=
  C9_exact_match_precedence "active" ["Active Construction", "Active"] "Active"
    (by decide) (by decide) (by decide)

/-! ## C10 — "Chicago" jurisdiction alias -/

/-- C10, counterexample: the claim says every request with jurisdiction
"Chicago" issues a substring match against "North Chicago". In the projects
tool (`list_lake_county_projects`) no alias lookup is performed: the value
"Chicago" passes through unchanged and the condition issued to the remote
service is a substring match against "Chicago". -/
theorem C10_projects_tool_no_alias :
    projectsToolJurisdiction (some "Chicago") = some "Chicago" ∧
    projectsConditions none none none (projectsToolJurisdiction (some "Chicago"))
        none none none = ["UPPER(jurisdiction) LIKE UPPER('%Chicago%')"] ∧
    likeCondition "jurisdiction" "Chicago" ≠ likeCondition "jurisdiction" "North Chicago" := by
  refine ⟨by decide, by decide, by decide⟩

/-- C10, amended: the alias mapping is applied in the preapps tool
(`list_lake_county_preapps`): jurisdiction "Chicago" in any letter case is
rewritten to "North Chicago" before the predicate is built, and the WHERE
clause sent to the remote service contains the case-insensitive substring
match against "North Chicago". The projects tool applies no alias and issues
the substring match against the raw value "Chicago". -/
theorem C10_alias_in_preapps_tool (c : String)
    (halias : pyLower (pyStrip c) = "chicago") :
    preappsToolJurisdiction (some c) = some "North Chicago" ∧
    preappsWhere (preappsToolJurisdiction (some c)) none =
      "status <> 'Archived' AND UPPER(jurisdiction) LIKE UPPER('%North Chicago%')" ∧
    projectsConditions none none none (projectsToolJurisdiction (some "Chicago"))
        none none none = ["UPPER(jurisdiction) LIKE UPPER('%Chicago%')"] := by
  have hne : pyStrip c ≠ "" := by
    intro h
    rw [h] at halias
    exact absurd halias (by decide)
  have hcne : c ≠ "" := by
    intro h
    apply hne
    rw [h]
    decide
  have h1 : preappsToolJurisdiction (some c) = some "North Chicago" := by
    simp only [preappsToolJurisdiction]
    rw [if_neg (by simp [hcne, hne])]
    rw [halias]
    simp [JURISDICTION_ALIASES]
  refine ⟨h1, ?_, by decide⟩
  rw [h1]
  decide

/-- C10 witness: the uppercase spelling "CHICAGO" is aliased in the preapps
tool. -/
theorem C10_alias_in_preapps_tool_witness :
    preappsToolJurisdiction (some "CHICAGO") = some "North Chicago" ∧
    preappsWhere (preappsToolJurisdiction (some "CHICAGO")) none =
      "status <> 'Archived' AND UPPER(jurisdiction) LIKE UPPER('%North Chicago%')" ∧
    projectsConditions none none none (projectsToolJurisdiction (some "Chicago"))
        none none none = ["UPPER(jurisdiction) LIKE UPPER('%Chicago%')"] :=
  C10_alias_in_preapps_tool "CHICAGO" (by decide)

/-! ## C2 — vocabulary cache refresh on per-field failure -/

/-- C2, counterexample: the claim says a warm field whose fetch fails in a
refresh keeps its previously cached values. It is false: the refresh builds
this round's mapping from scratch and replaces the whole module cache, so
the warm `status` snapshot `["Active"]` is regressed to `[]` when the
`status` fetch fails while the other fields succeed. -/
theorem C2_warm_field_regressed :
    (fetch_lake_county_domains
      { domains_cache := some
          [("status", ["Active"]), ("ProjectStatus", ["Complete"]),
           ("jurisdiction", ["Zion"])]
        domains_cache_ts := 0 }
      600
      (fun f => if f = "status" then FieldFetchOutcome.fail
                else FieldFetchOutcome.ok [])).2.domains_cache =
      some [("status", []), ("ProjectStatus", []), ("jurisdiction", [])] := by
  decide

/-- C2, amended: a cache refresh (first load, or snapshot age at or past the
TTL) replaces the entire snapshot with this round's per-field outcomes:
every field is overwritten, and a field whose fetch failed this round is set
to the empty list even when it was previously warm. Only the not-yet-expired
path preserves old values (by skipping the refresh altogether). -/
theorem C2_refresh_replaces_snapshot (st : DomainsCacheState) (now : Nat)
    (outcomes : String → FieldFetchOutcome)
    (hexpired : st.domains_cache = none ∨
      DOMAINS_CACHE_TTL ≤ now - st.domains_cache_ts) :
    (fetch_lake_county_domains st now outcomes).2.domains_cache =
      some (DOMAIN_FIELDS.map (fun f => (f, domainValues (outcomes f)))) ∧
    (fetch_lake_county_domains st now outcomes).1 =
      DOMAIN_FIELDS.map (fun f => (f, domainValues (outcomes f))) := by
  have hlayer : layerConfigured LAKE_COUNTY_SEARCH_LAYER_ID = true := by decide
  unfold fetch_lake_county_domains
  cases hc : st.domains_cache with
  | none => simp [refreshDomains, hlayer]
  | some c =>
    rcases hexpired with h | h
    · rw [hc] at h
      cases h
    · have hlt : ¬ (now - st.domains_cache_ts < DOMAINS_CACHE_TTL) := by omega
      simp [hlt, refreshDomains, hlayer]

/-- C2 witness for the amended theorem: a first-ever refresh (cold cache)
installs exactly this round's outcomes. -/
theorem C2_refresh_replaces_snapshot_witness :
    (fetch_lake_county_domains { domains_cache := none, domains_cache_ts := 0 } 0
      (fun _ => FieldFetchOutcome.ok [])).2.domains_cache =
      some (DOMAIN_FIELDS.map
        (fun f => (f, domainValues ((fun _ => FieldFetchOutcome.ok []) f)))) ∧
    (fetch_lake_county_domains { domains_cache := none, domains_cache_ts := 0 } 0
      (fun _ => FieldFetchOutcome.ok [])).1 =
      DOMAIN_FIELDS.map
        (fun f => (f, domainValues ((fun _ => FieldFetchOutcome.ok []) f))) :=
  C2_refresh_replaces_snapshot
    { domains_cache := none, domains_cache_ts := 0 } 0
    (fun _ => FieldFetchOutcome.ok []) (Or.inl rfl)

/-! ## C6 — preapps archived exclusion and the empty-result shape -/

/-- C6, counterexample: with no jurisdiction and no sub-watershed the
predicate is exactly `status <> 'Archived'` (that part of the claim holds),
but on a remote fixture with zero matching rows `query_lake_county_preapps`
returns `found = True` with an empty match list — not `found = false` as the
claim states. -/
theorem C6_all_archived_found_true :
    preappsWhere none none = "status <> 'Archived'" ∧
    query_lake_county_preapps none none 200
        (fun _ _ => RemoteResp.payload false []) (fun _ => some []) =
      { found := true, matchList := [], limit_exceeded := false, message := none } := by
  refine ⟨by decide, by decide⟩

/-- C6, amended: for the sub-application kind with no jurisdiction and no
sub-watershed filter the predicate sent to the remote service is exactly the
single condition `status <> 'Archived'`, and when the remote service returns
zero matching rows the result has `found = true` with an empty record
sequence (the "no pre-applications found" phrasing is produced by the tool
layer from the empty list, not by a `found = false` service result). -/
theorem C6_archived_exclusion (remote : String → Nat → RemoteResp)
    (geomRemote : List Int → Option (List GFeature))
    (hresp : remote "status <> 'Archived'" 201 = RemoteResp.payload false []) :
    preappsWhere none none = "status <> 'Archived'" ∧
    query_lake_county_preapps none none 200 remote geomRemote =
      { found := true, matchList := [], limit_exceeded := false, message := none } := by
  have hw : preappsWhere none none = "status <> 'Archived'" := by decide
  refine ⟨hw, ?_⟩
  simp only [query_lake_county_preapps, hw]
  rw [show (200 : Nat) + 1 = 201 from rfl, hresp]
  simp [preappGeomMap]

/-- C6 witness for the amended theorem. -/
theorem C6_archived_exclusion_witness :
    preappsWhere none none = "status <> 'Archived'" ∧
    query_lake_county_preapps none none 200
        (fun _ _ => RemoteResp.payload false []) (fun _ => some []) =
      { found := true, matchList := [], limit_exceeded := false, message := none } :=
  C6_archived_exclusion (fun _ _ => RemoteResp.payload false []) (fun _ => some []) rfl

/-! ## C7 — remote failures degrade to the empty result -/

/-- C7: for each of the three query executors, a transport failure or a
service-reported `error` key in the primary response yields
`found = false`, `limit_exceeded = false` and an empty match list; the
functions are total, so no exception propagates to the caller. For the
projects executor this concerns any execution that reaches the remote phase
of its plan. -/
theorem C7_remote_failure_degrades :
    (∀ (j s : Option String) (limit : Nat) (remote : String → Nat → RemoteResp)
        (geomRemote : List Int → Option (List GFeature)),
      remoteFails (remote (preappsWhere j s) (limit + 1)) →
      query_lake_county_preapps j s limit remote geomRemote = emptyFailResult) ∧
    (∀ (j cr pb fp : Option String) (limit : Nat)
        (remote : String → Nat → RemoteResp),
      remoteFails (remote (concernsWhere j cr pb fp) (limit + 1)) →
      query_lake_county_concerns j cr pb fp limit remote = emptyFailResult) ∧
    (∀ (st ps : Option String) (pt : Option (List String))
        (j pp ss pc : Option String) (limit : Nat) (anf : Bool)
        (remote : String → Nat → RemoteResp) (layers : String → List GFeature)
        (w : String) (el : Nat),
      projectsPlan st ps pt j pp ss pc limit anf = ProjectsPlan.remoteQuery w el →
      remoteFails (remote w (el + 1)) →
      query_lake_county_projects st ps pt j pp ss pc limit anf remote layers =
        emptyFailResult) := by
  refine ⟨?_, ?_, ?_⟩
  · intro j s limit remote geomRemote hfail
    simp only [query_lake_county_preapps]
    rcases hfail with h | ⟨feats, h⟩ <;> (rw [h]; try simp [emptyFailResult])
  · intro j cr pb fp limit remote hfail
    simp only [query_lake_county_concerns]
    rcases hfail with h | ⟨feats, h⟩ <;> (rw [h]; try simp [emptyFailResult])
  · intro st ps pt j pp ss pc limit anf remote layers w el hplan hfail
    unfold query_lake_county_projects
    rw [hplan]
    dsimp only
    rcases hfail with h | ⟨feats, h⟩ <;> (rw [h]; try simp [emptyFailResult])

/-- C7 witness: a timeout on each executor's primary call, and an
error-keyed payload would behave identically; the projects instance reaches
the remote phase through a status filter. -/
theorem C7_remote_failure_degrades_witness :
    query_lake_county_preapps none none 200
        (fun _ _ => RemoteResp.transportError) (fun _ => none) = emptyFailResult ∧
    query_lake_county_concerns none none none none 200
        (fun _ _ => RemoteResp.transportError) = emptyFailResult ∧
    query_lake_county_projects (some "Active") none none none none none none 50 false
        (fun _ _ => RemoteResp.transportError) (fun _ => []) = emptyFailResult :=
  ⟨C7_remote_failure_degrades.1 none none 200 _ _ (Or.inl rfl),
   C7_remote_failure_degrades.2.1 none none none none 200 _ (Or.inl rfl),
   C7_remote_failure_degrades.2.2 (some "Active") none none none none none none 50
     false _ _ "UPPER(status) = UPPER('Active')" 50 (by decide) (Or.inl rfl)⟩

/-! ## C8 — empty condition list short-circuits before any remote call -/

/-- C8: when the condition list is empty and the caller did not set
`allow_no_filters`, the projects query plans an early exit carrying
`found = false`, an empty match list and the distinguishable
"No filters provided." message, and the full pipeline returns that result
for every remote oracle — i.e. without issuing any remote request. -/
theorem C8_no_filters_short_circuit (status project_status : Option String)
    (project_types : Option (List String))
    (jurisdiction project_partners subshed project_category : Option String)
    (limit : Nat)
    (hempty : projectsConditions status project_status project_types jurisdiction
      project_partners subshed project_category = []) :
    projectsPlan status project_status project_types jurisdiction project_partners
        subshed project_category limit false =
      ProjectsPlan.earlyExit
        { found := false, matchList := [], limit_exceeded := false
          message := some "No filters provided." } ∧
    ∀ (remote : String → Nat → RemoteResp) (layers : String → List GFeature),
      query_lake_county_projects status project_status project_types jurisdiction
          project_partners subshed project_category limit false remote layers =
        { found := false, matchList := [], limit_exceeded := false
          message := some "No filters provided." } := by
  have hplan : projectsPlan status project_status project_types jurisdiction
      project_partners subshed project_category limit false =
      ProjectsPlan.earlyExit
        { found := false, matchList := [], limit_exceeded := false
          message := some "No filters provided." } := by
    unfold projectsPlan
    rw [if_neg (by decide)]
    rw [hempty]
    simp
  refine ⟨hplan, ?_⟩
  intro remote layers
  unfold query_lake_county_projects
  rw [hplan]

/-- C8 witness: all filters absent. -/
theorem C8_no_filters_short_circuit_witness :
    projectsPlan none none none none none none none 50 false =
      ProjectsPlan.earlyExit
        { found := false, matchList := [], limit_exceeded := false
          message := some "No filters provided." } ∧
    ∀ (remote : String → Nat → RemoteResp) (layers : String → List GFeature),
      query_lake_county_projects none none none none none none none 50 false
          remote layers =
        { found := false, matchList := [], limit_exceeded := false
          message := some "No filters provided." } :=
  C8_no_filters_short_circuit none none none none none none none 50 (by decide)

/-! ## C4 — capHint + 1 request and truncation -/

/-- C4: against an honest remote that returns its matching rows truncated to
the requested row count, a query whose predicate matches exactly `limit`
rows reports `limit_exceeded = false`, and one whose predicate matches
`limit + 1` or more rows reports `limit_exceeded = true` and returns exactly
`limit` records: the executor requests `limit + 1` rows and truncates to
`limit`. (Stated on the preapps executor; the projects and concerns
executors share the identical request/truncation tail.) -/
theorem C4_cap_truncation (limit : Nat) (rowsA rowsB : List PFeature)
    (geomRemote : List Int → Option (List GFeature))
    (hA : rowsA.length = limit) (hB : limit + 1 ≤ rowsB.length) :
    (query_lake_county_preapps none none limit
        (fun _ cap => RemoteResp.payload false (rowsA.take cap))
        geomRemote).limit_exceeded = false ∧
    (query_lake_county_preapps none none limit
        (fun _ cap => RemoteResp.payload false (rowsB.take cap))
        geomRemote).limit_exceeded = true ∧
    (query_lake_county_preapps none none limit
        (fun _ cap => RemoteResp.payload false (rowsB.take cap))
        geomRemote).matchList.length = limit := by
  unfold query_lake_county_preapps
  simp only [List.length_take]
  refine ⟨?_, ?_, ?_⟩
  · simp [hA]
  · simp
    omega
  · simp
    omega

/-- C4 witness: a two-row service with cap 1, and a one-row service with
cap 1. -/
theorem C4_cap_truncation_witness :
    (query_lake_county_preapps none none 1
        (fun _ cap => RemoteResp.payload false
          ([({ project_id := none, geometryAttr := none, geom := none,
               geomType := none } : PFeature)].take cap))
        (fun _ => none)).limit_exceeded = false ∧
    (query_lake_county_preapps none none 1
        (fun _ cap => RemoteResp.payload false
          (([{ project_id := none, geometryAttr := none, geom := none,
               geomType := none },
             { project_id := none, geometryAttr := none, geom := none,
               geomType := none }] : List PFeature).take cap))
        (fun _ => none)).limit_exceeded = true ∧
    (query_lake_county_preapps none none 1
        (fun _ cap => RemoteResp.payload false
          (([{ project_id := none, geometryAttr := none, geom := none,
               geomType := none },
             { project_id := none, geometryAttr := none, geom := none,
               geomType := none }] : List PFeature).take cap))
        (fun _ => none)).matchList.length = 1 :=
  C4_cap_truncation 1
    [{ project_id := none, geometryAttr := none, geom := none, geomType := none }]
    [{ project_id := none, geometryAttr := none, geom := none, geomType := none },
     { project_id := none, geometryAttr := none, geom := none, geomType := none }]
    (fun _ => none) (by decide) (by decide)

/-! ## C1 — batched geometry resolution refines per-record fetching -/

/-- Unfolding lemma: the per-identifier list of a cons map. -/
theorem listByPid_cons (r : Int) (fs : List GFeature)
    (rest : List (Int × List GFeature)) (p : Int) :
    listByPid ((r, fs) :: rest) p = if r = p then fs else listByPid rest p := by
  by_cases h : r = p
  · simp [listByPid, List.find?, h]
  · have hb : (r == p) = false := beq_eq_false_iff_ne.mpr h
    simp [listByPid, List.find?, hb, h]

/-- The per-identifier list of the empty map. -/
theorem listByPid_nil (p : Int) : listByPid [] p = [] := by
  simp [listByPid]

/-- Appending one feature under key `q` extends exactly the `q` entry's
feature list. -/
theorem listByPid_addGeomFeature (m : List (Int × List GFeature)) (q : Int)
    (f : GFeature) (p : Int) :
    listByPid (addGeomFeature m q f) p =
      if p = q then listByPid m p ++ [f] else listByPid m p := by
  induction m with
  | nil =>
    by_cases h : p = q
    · subst h
      simp [addGeomFeature, listByPid_cons, listByPid_nil]
    · have hqp : ¬ q = p := fun hqp => h hqp.symm
      simp [addGeomFeature, listByPid_cons, listByPid_nil, h, hqp]
  | cons e rest ih =>
    obtain ⟨r, fs⟩ := e
    by_cases hrq : r = q
    · subst hrq
      by_cases hpr : r = p
      · subst hpr
        simp [addGeomFeature, listByPid_cons]
      · have hpr2 : ¬ p = r := fun h => hpr h.symm
        simp [addGeomFeature, listByPid_cons, hpr, hpr2]
    · by_cases hpr : r = p
      · have hpq : ¬ p = q := fun h => hrq (hpr.trans h)
        simp [addGeomFeature, listByPid_cons, hrq, hpr, hpq]
      · simp [addGeomFeature, listByPid_cons, hrq, hpr, ih]

/-- Merging one layer's response into the map appends, per identifier,
exactly the response features carrying that identifier. -/
theorem listByPid_mergeLayerFeatures (fs : List GFeature)
    (m : List (Int × List GFeature)) (p : Int) :
    listByPid (mergeLayerFeatures m fs) p =
      listByPid m p ++ fs.filter (fun f => f.project_id == some p) := by
  induction fs generalizing m with
  | nil => simp [mergeLayerFeatures]
  | cons f rest ih =>
    simp only [mergeLayerFeatures, List.foldl_cons] at ih ⊢
    cases hf : f.project_id with
    | none =>
      rw [ih]
      simp [hf]
    | some q =>
      rw [ih, listByPid_addGeomFeature]
      by_cases hpq : p = q
      · subst hpq
        simp [hf, List.append_assoc]
      · have hb : (some q == some p) = false := by
          simp only [beq_eq_false_iff_ne]
          exact fun h => hpq (Option.some_injective _ h).symm
        simp [hf, hpq, hb]

/-- The batch fold accumulates, per identifier, the concatenation of each
issued layer query's features carrying that identifier, in entry order. -/
theorem listByPid_batch_fold (layers : String → List GFeature)
    (byLayer : List (String × List Int)) (acc : List (Int × List GFeature))
    (p : Int) :
    listByPid (byLayer.foldl (batchStep layers) acc) p =
      listByPid acc p ++
        (byLayer.map (fun e =>
          if ¬ e.2.isEmpty ∧ layerConfigured e.1 then
            (fetchLayerFeatures layers e.1 e.2).filter
              (fun f => f.project_id == some p)
          else [])).flatten := by
  induction byLayer generalizing acc with
  | nil => simp
  | cons e rest ih =>
    by_cases h1 : e.2.isEmpty
    · have h1' : e.2 = [] := by simpa using h1
      simp [batchStep, h1', ih]
    · have h1' : ¬ e.2 = [] := by simpa using h1
      by_cases h2 : layerConfigured e.1
      · simp [batchStep, h1, h1', h2, ih, listByPid_mergeLayerFeatures,
          List.append_assoc]
      · simp [batchStep, h1, h1', h2, ih]

/-- `addGeomFeature` never creates an empty entry. -/
theorem addGeomFeature_entries_nonempty (m : List (Int × List GFeature))
    (q : Int) (f : GFeature) (h : ∀ e ∈ m, e.2 ≠ []) :
    ∀ e ∈ addGeomFeature m q f, e.2 ≠ [] := by
  induction m with
  | nil =>
    intro e he
    simp [addGeomFeature] at he
    subst he
    simp
  | cons x rest ih =>
    obtain ⟨r, fs⟩ := x
    intro e he
    by_cases hrq : r = q
    · simp [addGeomFeature, hrq] at he
      rcases he with he | he
      · subst he
        simp
      · exact h e (List.mem_cons_of_mem _ he)
    · simp only [addGeomFeature, if_neg hrq] at he
      rcases List.mem_cons.mp he with he | he
      · subst he
        exact h (r, fs) (List.mem_cons_self _ _)
      · exact ih (fun e2 he2 => h e2 (List.mem_cons_of_mem _ he2)) e he

/-- `mergeLayerFeatures` never creates an empty entry. -/
theorem mergeLayerFeatures_entries_nonempty (fs : List GFeature)
    (m : List (Int × List GFeature)) (h : ∀ e ∈ m, e.2 ≠ []) :
    ∀ e ∈ mergeLayerFeatures m fs, e.2 ≠ [] := by
  induction fs generalizing m with
  | nil => exact h
  | cons f rest ih =>
    simp only [mergeLayerFeatures, List.foldl_cons] at ih ⊢
    cases hf : f.project_id with
    | none => exact ih m h
    | some q => exact ih _ (addGeomFeature_entries_nonempty m q f h)

/-- Every entry of the batch result has a non-empty feature list. -/
theorem batch_entries_nonempty (layers : String → List GFeature)
    (byLayer : List (String × List Int)) :
    ∀ e ∈ _batch_fetch_geometries layers byLayer, e.2 ≠ [] := by
  unfold _batch_fetch_geometries
  suffices hgen : ∀ (bl : List (String × List Int))
      (acc : List (Int × List GFeature)), (∀ e ∈ acc, e.2 ≠ []) →
      ∀ e ∈ bl.foldl (batchStep layers) acc, e.2 ≠ [] by
    exact hgen byLayer [] (by simp)
  intro bl
  induction bl with
  | nil => intro acc hacc; exact hacc
  | cons e rest ih =>
    intro acc hacc
    apply ih
    unfold batchStep
    by_cases h1 : e.2.isEmpty
    · simpa [h1] using hacc
    · by_cases h2 : layerConfigured e.1
      · simpa [h1, h2] using
          mergeLayerFeatures_entries_nonempty (fetchLayerFeatures layers e.1 e.2) acc hacc
      · simpa [h1, h2] using hacc

/-- On maps without empty entries, the Python `.get` lookup coincides with
the `none`-on-empty wrapping of the accumulated list. -/
theorem geomByPid_eq_optOfList (m : List (Int × List GFeature)) (p : Int)
    (h : ∀ e ∈ m, e.2 ≠ []) :
    geomByPid m p = optOfList (listByPid m p) := by
  unfold geomByPid listByPid optOfList
  cases hf : m.find? (fun e => e.1 == p) with
  | none => simp
  | some e =>
    have hne : e.2 ≠ [] := h e (List.mem_of_find?_eq_some hf)
    simp [hne]

/-- Any layer id `GEOMETRY_TYPE_TO_LAYER` produces is a configured layer. -/
theorem GEOMETRY_TYPE_TO_LAYER_configured (g lid : String)
    (h : GEOMETRY_TYPE_TO_LAYER g = some lid) : layerConfigured lid = true := by
  unfold GEOMETRY_TYPE_TO_LAYER at h
  split at h
  · cases h; decide
  · split at h
    · cases h; decide
    · split at h
      · cases h; decide
      · split at h
        · cases h; decide
        · cases h

/-- `appendToLayer` files `p` under `lid`. -/
theorem appendToLayer_mem_self (acc : List (String × List Int)) (lid : String)
    (p : Int) :
    ∃ pids, (lid, pids) ∈ appendToLayer acc lid p ∧ p ∈ pids := by
  induction acc with
  | nil => exact ⟨[p], by simp [appendToLayer], by simp⟩
  | cons e rest ih =>
    obtain ⟨l, ps⟩ := e
    by_cases h : l = lid
    · subst h
      refine ⟨ps ++ [p], ?_, by simp⟩
      simp only [appendToLayer, if_pos rfl]
      exact List.mem_cons_self _ _
    · obtain ⟨pids, hm, hp⟩ := ih
      refine ⟨pids, ?_, hp⟩
      simp only [appendToLayer, if_neg h]
      exact List.mem_cons_of_mem _ hm

/-- `appendToLayer` keeps every already-filed identifier filed under its
layer. -/
theorem appendToLayer_mem_mono (acc : List (String × List Int)) (lid : String)
    (q : Int) (L : String) (pids : List Int) (p : Int)
    (hm : (L, pids) ∈ acc) (hp : p ∈ pids) :
    ∃ pids2, (L, pids2) ∈ appendToLayer acc lid q ∧ p ∈ pids2 := by
  induction acc with
  | nil => cases hm
  | cons e rest ih =>
    obtain ⟨l, ps⟩ := e
    by_cases h : l = lid
    · subst h
      rcases List.mem_cons.mp hm with heq | htail
      · injection heq with hL hps
        subst hL
        subst hps
        refine ⟨pids ++ [q], ?_, by simp [hp]⟩
        simp only [appendToLayer, if_pos rfl]
        exact List.mem_cons_self _ _
      · refine ⟨pids, ?_, hp⟩
        simp only [appendToLayer, if_pos rfl]
        exact List.mem_cons_of_mem _ htail
    · rcases List.mem_cons.mp hm with heq | htail
      · refine ⟨pids, ?_, hp⟩
        simp only [appendToLayer, if_neg h]
        rw [heq]
        exact List.mem_cons_self _ _
      · obtain ⟨pids2, hm2, hp2⟩ := ih htail
        refine ⟨pids2, ?_, hp2⟩
        simp only [appendToLayer, if_neg h]
        exact List.mem_cons_of_mem _ hm2

/-- The keys after `appendToLayer`: unchanged when `lid` is already a key,
otherwise `lid` is appended at the end. -/
theorem appendToLayer_keys (acc : List (String × List Int)) (lid : String)
    (p : Int) :
    (appendToLayer acc lid p).map Prod.fst =
      if lid ∈ acc.map Prod.fst then acc.map Prod.fst
      else acc.map Prod.fst ++ [lid] := by
  induction acc with
  | nil => simp [appendToLayer]
  | cons e rest ih =>
    obtain ⟨l, ps⟩ := e
    by_cases h : l = lid
    · subst h
      simp [appendToLayer]
    · have h2 : ¬ lid = l := fun hh => h hh.symm
      simp only [appendToLayer, if_neg h, List.map_cons, ih]
      by_cases h3 : lid ∈ rest.map Prod.fst
      · simp [h3, h2]
      · simp [h3, h2]

/-- `appendToLayer` preserves an entry invariant that holds for the new key
and is stable under appending an identifier. -/
theorem appendToLayer_entries_inv (acc : List (String × List Int))
    (lid : String) (p : Int)
    (hacc : ∀ e ∈ acc, layerConfigured e.1 = true ∧ e.2 ≠ [])
    (hlid : layerConfigured lid = true) :
    ∀ e ∈ appendToLayer acc lid p, layerConfigured e.1 = true ∧ e.2 ≠ [] := by
  induction acc with
  | nil =>
    intro e he
    simp [appendToLayer] at he
    subst he
    exact ⟨hlid, by simp⟩
  | cons x rest ih =>
    obtain ⟨l, ps⟩ := x
    intro e he
    by_cases h : l = lid
    · subst h
      simp only [appendToLayer, if_pos rfl] at he
      rcases List.mem_cons.mp he with heq | htail
      · subst heq
        refine ⟨(hacc (l, ps) (List.mem_cons_self _ _)).1, by simp⟩
      · exact hacc e (List.mem_cons_of_mem _ htail)
    · simp only [appendToLayer, if_neg h] at he
      rcases List.mem_cons.mp he with heq | htail
      · subst heq
        exact hacc (l, ps) (List.mem_cons_self _ _)
      · exact ih (fun e2 he2 => hacc e2 (List.mem_cons_of_mem _ he2)) e htail

/-- Every entry of the grouping has a configured layer key and a non-empty
identifier list. -/
theorem grouping_entries_inv (fs : List PFeature)
    (acc : List (String × List Int))
    (hacc : ∀ e ∈ acc, layerConfigured e.1 = true ∧ e.2 ≠ []) :
    ∀ e ∈ fs.foldl stepGroup acc, layerConfigured e.1 = true ∧ e.2 ≠ [] := by
  induction fs generalizing acc with
  | nil => exact hacc
  | cons f rest ih =>
    apply ih
    unfold stepGroup
    cases hp : f.project_id with
    | none => exact hacc
    | some p =>
      cases hg : f.geometryAttr with
      | none => exact hacc
      | some g =>
        dsimp only
        by_cases hcond : p ≠ 0 ∧ g ≠ ""
        · rw [if_pos hcond]
          cases hmap : GEOMETRY_TYPE_TO_LAYER g with
          | none => exact hacc
          | some lid =>
            exact appendToLayer_entries_inv acc lid p hacc
              (GEOMETRY_TYPE_TO_LAYER_configured g lid hmap)
        · rw [if_neg hcond]
          exact hacc

/-- The grouping keys stay duplicate-free. -/
theorem grouping_keys_nodup (fs : List PFeature)
    (acc : List (String × List Int)) (hacc : (acc.map Prod.fst).Nodup) :
    ((fs.foldl stepGroup acc).map Prod.fst).Nodup := by
  induction fs generalizing acc with
  | nil => exact hacc
  | cons f rest ih =>
    apply ih
    unfold stepGroup
    cases hp : f.project_id with
    | none => exact hacc
    | some p =>
      cases hg : f.geometryAttr with
      | none => exact hacc
      | some g =>
        dsimp only
        by_cases hcond : p ≠ 0 ∧ g ≠ ""
        · rw [if_pos hcond]
          cases hmap : GEOMETRY_TYPE_TO_LAYER g with
          | none => exact hacc
          | some lid =>
            rw [appendToLayer_keys]
            by_cases hmem : lid ∈ acc.map Prod.fst
            · simpa [hmem] using hacc
            · simp [hmem, List.nodup_append, hacc]
        · rw [if_neg hcond]
          exact hacc

/-- Every key the grouping step adds comes from the processed record's
discriminator. -/
theorem stepGroup_keys (acc : List (String × List Int)) (f : PFeature) :
    ∀ k ∈ (stepGroup acc f).map Prod.fst,
      k ∈ acc.map Prod.fst ∨ refsLayerB f k = true := by
  unfold stepGroup
  cases hp : f.project_id with
  | none => exact fun k hk => Or.inl hk
  | some p =>
    cases hg : f.geometryAttr with
    | none => exact fun k hk => Or.inl hk
    | some g =>
      dsimp only
      by_cases hcond : p ≠ 0 ∧ g ≠ ""
      · rw [if_pos hcond]
        cases hmap : GEOMETRY_TYPE_TO_LAYER g with
        | none => exact fun k hk => Or.inl hk
        | some lid =>
          intro k hk
          rw [appendToLayer_keys] at hk
          by_cases hmem : lid ∈ acc.map Prod.fst
          · rw [if_pos hmem] at hk
            exact Or.inl hk
          · rw [if_neg hmem] at hk
            rcases List.mem_append.mp hk with hk | hk
            · exact Or.inl hk
            · have hkl : k = lid := by simpa using hk
              subst hkl
              refine Or.inr ?_
              unfold refsLayerB
              rw [hp, hg]
              simp [hcond.1, hcond.2, hmap]
      · rw [if_neg hcond]
        exact fun k hk => Or.inl hk

/-- Every grouping key is referenced by some input record. -/
theorem grouping_keys_src (fs : List PFeature)
    (acc : List (String × List Int)) :
    ∀ k ∈ (fs.foldl stepGroup acc).map Prod.fst,
      k ∈ acc.map Prod.fst ∨ ∃ feat ∈ fs, refsLayerB feat k = true := by
  induction fs generalizing acc with
  | nil => exact fun k hk => Or.inl hk
  | cons f rest ih =>
    intro k hk
    rcases ih (stepGroup acc f) k hk with h | ⟨feat, hf, hr⟩
    · rcases stepGroup_keys acc f k h with h2 | h2
      · exact Or.inl h2
      · exact Or.inr ⟨f, List.mem_cons_self _ _, h2⟩
    · exact Or.inr ⟨feat, List.mem_cons_of_mem _ hf, hr⟩

/-- Once an identifier is filed under a layer, the rest of the grouping loop
keeps it filed there. -/
theorem grouping_mem_pres (fs : List PFeature) (L : String) (p : Int) :
    ∀ (acc : List (String × List Int)) (pids : List Int),
      (L, pids) ∈ acc → p ∈ pids →
      ∃ pids2, (L, pids2) ∈ fs.foldl stepGroup acc ∧ p ∈ pids2 := by
  induction fs with
  | nil => exact fun acc pids hm hp => ⟨pids, hm, hp⟩
  | cons f rest ih =>
    intro acc pids hm hp
    have hstep : ∃ pids1, (L, pids1) ∈ stepGroup acc f ∧ p ∈ pids1 := by
      unfold stepGroup
      cases hpf : f.project_id with
      | none => exact ⟨pids, hm, hp⟩
      | some q =>
        cases hgf : f.geometryAttr with
        | none => exact ⟨pids, hm, hp⟩
        | some g =>
          dsimp only
          by_cases hcond : q ≠ 0 ∧ g ≠ ""
          · rw [if_pos hcond]
            cases hmap : GEOMETRY_TYPE_TO_LAYER g with
            | none => exact ⟨pids, hm, hp⟩
            | some lid => exact appendToLayer_mem_mono acc lid q L pids p hm hp
          · rw [if_neg hcond]
            exact ⟨pids, hm, hp⟩
    obtain ⟨pids1, hm1, hp1⟩ := hstep
    rcases ih (stepGroup acc f) pids1 hm1 hp1 with ⟨pids2, hm2, hp2⟩
    exact ⟨pids2, by simpa using hm2, hp2⟩

/-- A record with truthy identifier and mapped discriminator ends up filed
under its layer in the grouping. -/
theorem grouping_mem (feat : PFeature) (p : Int) (g lid : String)
    (hp : feat.project_id = some p) (hp0 : p ≠ 0)
    (hg : feat.geometryAttr = some g) (hg0 : g ≠ "")
    (hmap : GEOMETRY_TYPE_TO_LAYER g = some lid) :
    ∀ (fs : List PFeature), feat ∈ fs → ∀ (acc : List (String × List Int)),
      ∃ pids, (lid, pids) ∈ fs.foldl stepGroup acc ∧ p ∈ pids := by
  intro fs
  induction fs with
  | nil => intro h; cases h
  | cons f rest ih =>
    intro hfeat acc
    rcases List.mem_cons.mp hfeat with heq | htail
    · subst heq
      have hstep : stepGroup acc feat = appendToLayer acc lid p := by
        unfold stepGroup
        rw [hp, hg]
        dsimp only
        rw [if_pos ⟨hp0, hg0⟩, hmap]
      rw [List.foldl_cons, hstep]
      obtain ⟨pids, hm, hpp⟩ := appendToLayer_mem_self acc lid p
      exact grouping_mem_pres rest lid p (appendToLayer acc lid p) pids hm hpp
    · rw [List.foldl_cons]
      exact ih htail (stepGroup acc f)

/-- Unpack `refsLayerB`. -/
theorem refsLayerB_spec (feat : PFeature) (lid : String)
    (h : refsLayerB feat lid = true) :
    ∃ p g, feat.project_id = some p ∧ p ≠ 0 ∧ feat.geometryAttr = some g ∧
      g ≠ "" ∧ GEOMETRY_TYPE_TO_LAYER g = some lid := by
  unfold refsLayerB at h
  cases hp : feat.project_id with
  | none =>
    rw [hp] at h
    cases h
  | some p =>
    cases hg : feat.geometryAttr with
    | none =>
      rw [hp, hg] at h
      cases h
    | some g =>
      rw [hp, hg] at h
      simp only [Bool.and_eq_true, decide_eq_true_eq, beq_iff_eq] at h
      exact ⟨p, g, rfl, h.1.1, rfl, h.1.2, h.2⟩

/-- A record's discriminator determines its layer uniquely. -/
theorem refsLayerB_unique (feat : PFeature) (k1 k2 : String)
    (h1 : refsLayerB feat k1 = true) (h2 : refsLayerB feat k2 = true) :
    k1 = k2 := by
  obtain ⟨p1, g1, hp1, _, hg1, _, hm1⟩ := refsLayerB_spec feat k1 h1
  obtain ⟨p2, g2, hp2, _, hg2, _, hm2⟩ := refsLayerB_spec feat k2 h2
  rw [hg1] at hg2
  injection hg2 with hgg
  subst hgg
  rw [hm1] at hm2
  injection hm2

/-- When every grouped entry qualifies for a POST, the call count is the
number of entries. -/
theorem batchCallCount_filter_all (byLayer : List (String × List Int))
    (h : ∀ e ∈ byLayer, (!e.2.isEmpty && layerConfigured e.1) = true) :
    batchCallCount byLayer = byLayer.length := by
  unfold batchCallCount
  rw [List.filter_eq_self.mpr h]

/-- A duplicate-free list whose members are exactly three pairwise distinct
values has length three. -/
theorem nodup_three_length (K : List String) (l1 l2 l3 : String)
    (hn : K.Nodup) (h12 : l1 ≠ l2) (h13 : l1 ≠ l3) (h23 : l2 ≠ l3)
    (hsub : ∀ k ∈ K, k = l1 ∨ k = l2 ∨ k = l3)
    (h1 : l1 ∈ K) (h2 : l2 ∈ K) (h3 : l3 ∈ K) : K.length = 3 := by
  have hperm : List.Perm K [l1, l2, l3] := by
    rw [List.perm_ext_iff_of_nodup hn (by simp [h12, h13, h23])]
    intro a
    constructor
    · intro ha
      rcases hsub a ha with h | h | h <;> simp [h]
    · intro ha
      simp only [List.mem_cons, List.not_mem_nil, or_false] at ha
      rcases ha with h | h | h <;> subst h <;> assumption
  simpa using hperm.length_eq

/-- C1: for a set of matched records whose truthy discriminators reference
exactly the three distinct geometry layers `l1`, `l2`, `l3`,
`_batch_fetch_geometries` over the grouped identifiers issues exactly 3
remote POSTs — one per distinct layer, independent of the number of
records — and, provided the per-layer identifier lists are disjoint and no
layer query hits the 2000-row response cap, the merged geometry map gives
every record exactly what the per-record `_fetch_project_geometry` would
have produced for its identifier and discriminator. -/
theorem C1_batch_geometry_refinement
    (layers : String → List GFeature) (features : List PFeature)
    (l1 l2 l3 : String)
    (h12 : l1 ≠ l2) (h13 : l1 ≠ l3) (h23 : l2 ≠ l3)
    (href : ∀ feat ∈ features,
      (refsLayerB feat l1 || refsLayerB feat l2 || refsLayerB feat l3) = true)
    (hall1 : ∃ feat ∈ features, refsLayerB feat l1 = true)
    (hall2 : ∃ feat ∈ features, refsLayerB feat l2 = true)
    (hall3 : ∃ feat ∈ features, refsLayerB feat l3 = true)
    (hdisj : ∀ e1 ∈ project_ids_by_layer features,
      ∀ e2 ∈ project_ids_by_layer features,
      e1.1 ≠ e2.1 → ∀ q ∈ e1.2, q ∉ e2.2)
    (hcap : ∀ e ∈ project_ids_by_layer features,
      ((layers e.1).filter (fun f => pidInList f e.2)).length ≤ 2000) :
    batchCallCount (project_ids_by_layer features) = 3 ∧
    ∀ feat ∈ features, ∀ p g,
      feat.project_id = some p → p ≠ 0 → feat.geometryAttr = some g → g ≠ "" →
      geomByPid (_batch_fetch_geometries layers (project_ids_by_layer features)) p =
        _fetch_project_geometry layers p g := by
  have hinv := grouping_entries_inv features [] (by simp)
  have hn : ((project_ids_by_layer features).map Prod.fst).Nodup :=
    grouping_keys_nodup features [] (by simp)
  constructor
  · have hlen : batchCallCount (project_ids_by_layer features) =
        (project_ids_by_layer features).length := by
      apply batchCallCount_filter_all
      intro e he
      obtain ⟨hc, hne⟩ := hinv e he
      simp [hc, hne]
    rw [hlen, ← List.length_map (project_ids_by_layer features) Prod.fst]
    apply nodup_three_length _ l1 l2 l3 hn h12 h13 h23
    · intro k hk
      rcases grouping_keys_src features [] k hk with h | ⟨feat, hf, hr⟩
      · simp at h
      · have h3 := href feat hf
        simp only [Bool.or_eq_true] at h3
        rcases h3 with (h3 | h3) | h3
        · exact Or.inl (refsLayerB_unique feat k l1 hr h3)
        · exact Or.inr (Or.inl (refsLayerB_unique feat k l2 hr h3))
        · exact Or.inr (Or.inr (refsLayerB_unique feat k l3 hr h3))
    · obtain ⟨feat, hf, hr⟩ := hall1
      obtain ⟨p, g, hp, hp0, hg, hg0, hmap⟩ := refsLayerB_spec feat l1 hr
      obtain ⟨pids, hm, _⟩ :=
        grouping_mem feat p g l1 hp hp0 hg hg0 hmap features hf []
      exact List.mem_map_of_mem Prod.fst hm
    · obtain ⟨feat, hf, hr⟩ := hall2
      obtain ⟨p, g, hp, hp0, hg, hg0, hmap⟩ := refsLayerB_spec feat l2 hr
      obtain ⟨pids, hm, _⟩ :=
        grouping_mem feat p g l2 hp hp0 hg hg0 hmap features hf []
      exact List.mem_map_of_mem Prod.fst hm
    · obtain ⟨feat, hf, hr⟩ := hall3
      obtain ⟨p, g, hp, hp0, hg, hg0, hmap⟩ := refsLayerB_spec feat l3 hr
      obtain ⟨pids, hm, _⟩ :=
        grouping_mem feat p g l3 hp hp0 hg hg0 hmap features hf []
      exact List.mem_map_of_mem Prod.fst hm
  · intro feat hfeat p g hp hp0 hg hg0
    have h3 := href feat hfeat
    simp only [Bool.or_eq_true] at h3
    have hlid : ∃ lid, GEOMETRY_TYPE_TO_LAYER g = some lid := by
      have hof : ∀ k, refsLayerB feat k = true →
          ∃ lid, GEOMETRY_TYPE_TO_LAYER g = some lid := by
        intro k hk
        obtain ⟨p', g', hp', _, hg', _, hmap'⟩ := refsLayerB_spec feat k hk
        rw [hg] at hg'
        injection hg' with hgg
        subst hgg
        exact ⟨k, hmap'⟩
      rcases h3 with (h3 | h3) | h3
      · exact hof l1 h3
      · exact hof l2 h3
      · exact hof l3 h3
    obtain ⟨lid, hmap⟩ := hlid
    obtain ⟨pids, hmem, hppids⟩ :=
      grouping_mem feat p g lid hp hp0 hg hg0 hmap features hfeat []
    have hconf : layerConfigured lid = true :=
      GEOMETRY_TYPE_TO_LAYER_configured g lid hmap
    have hrhs : _fetch_project_geometry layers p g =
        optOfList ((layers lid).filter (fun f => f.project_id == some p)) := by
      unfold _fetch_project_geometry optOfList
      rw [if_pos hg0, hmap]
      simp [hconf]
    rw [geomByPid_eq_optOfList _ p
      (batch_entries_nonempty layers (project_ids_by_layer features)), hrhs]
    congr 1
    unfold _batch_fetch_geometries
    rw [listByPid_batch_fold, listByPid_nil, List.nil_append]
    obtain ⟨s, t, hG0⟩ := List.append_of_mem hmem
    have hG : project_ids_by_layer features = s ++ (lid, pids) :: t := hG0
    have hn' := hn
    rw [hG, List.map_append, List.map_cons] at hn'
    rw [List.nodup_append] at hn'
    have hlid_s : lid ∉ s.map Prod.fst := by
      intro hm'
      exact hn'.2.2 hm' (List.mem_cons_self _ _)
    have hlid_t : lid ∉ t.map Prod.fst := (List.nodup_cons.mp hn'.2.1).1
    have hzero : ∀ (e : String × List Int),
        e ∈ project_ids_by_layer features → e.1 ≠ lid →
        (if ¬ e.2.isEmpty ∧ layerConfigured e.1 then
          (fetchLayerFeatures layers e.1 e.2).filter
            (fun f => f.project_id == some p)
        else []) = [] := by
      intro e heG hkey
      by_cases hc : ¬ e.2.isEmpty ∧ layerConfigured e.1
      · rw [if_pos hc]
        apply List.filter_eq_nil_iff.mpr
        intro f hf
        simp only [beq_iff_eq]
        intro hfp
        have hfin : pidInList f e.2 = true := by
          unfold fetchLayerFeatures at hf
          exact (List.mem_filter.mp (List.mem_of_mem_take hf)).2
        rw [pidInList, hfp] at hfin
        have hpe : p ∈ e.2 := List.elem_iff.mp hfin
        exact hdisj (lid, pids) hmem e heG (fun hh => hkey hh.symm) p hppids hpe
      · rw [if_neg hc]
    rw [hG, List.map_append, List.map_cons, List.flatten_append,
      List.flatten_cons]
    have hzs : (s.map (fun e =>
        if ¬ e.2.isEmpty ∧ layerConfigured e.1 then
          (fetchLayerFeatures layers e.1 e.2).filter
            (fun f => f.project_id == some p)
        else [])).flatten = [] := by
      apply List.flatten_eq_nil_iff.mpr
      intro x hx
      obtain ⟨e, hes, hex⟩ := List.mem_map.mp hx
      rw [← hex]
      refine hzero e ?_ ?_
      · rw [hG]
        exact List.mem_append_left _ hes
      · intro hkeq
        exact hlid_s (hkeq ▸ List.mem_map_of_mem Prod.fst hes)
    have hzt : (t.map (fun e =>
        if ¬ e.2.isEmpty ∧ layerConfigured e.1 then
          (fetchLayerFeatures layers e.1 e.2).filter
            (fun f => f.project_id == some p)
        else [])).flatten = [] := by
      apply List.flatten_eq_nil_iff.mpr
      intro x hx
      obtain ⟨e, hes, hex⟩ := List.mem_map.mp hx
      rw [← hex]
      refine hzero e ?_ ?_
      · rw [hG]
        exact List.mem_append_right _ (List.mem_cons_of_mem _ hes)
      · intro hkeq
        exact hlid_t (hkeq ▸ List.mem_map_of_mem Prod.fst hes)
    rw [hzs, hzt, List.nil_append, List.append_nil]
    have hpne : ¬ pids.isEmpty := by
      simp only [List.isEmpty_iff]
      exact List.ne_nil_of_mem hppids
    rw [if_pos ⟨hpne, hconf⟩]
    unfold fetchLayerFeatures
    rw [List.take_of_length_le (hcap (lid, pids) hmem), List.filter_filter]
    apply List.filter_congr
    intro f hf
    cases hfp : (f.project_id == some p) with
    | false => simp
    | true =>
      have hfpe : f.project_id = some p := by simpa using hfp
      simp only [pidInList, hfpe, hfp, Bool.true_and]
      simpa using hppids

/-- C1 witness: three records referencing the three geometry layers; the
batch issues exactly 3 POSTs, and the merged map agrees with the per-record
fetch both for a record with batched features (id 1) and for one whose
layer holds no features (id 3). -/
theorem C1_batch_geometry_refinement_witness :
    batchCallCount (project_ids_by_layer demoProjectFeatures) = 3 ∧
    geomByPid (_batch_fetch_geometries demoGeometryLayers
        (project_ids_by_layer demoProjectFeatures)) 1 =
      _fetch_project_geometry demoGeometryLayers 1 "Polygon" ∧
    geomByPid (_batch_fetch_geometries demoGeometryLayers
        (project_ids_by_layer demoProjectFeatures)) 3 =
      _fetch_project_geometry demoGeometryLayers 3 "Line" := by
  have h := C1_batch_geometry_refinement demoGeometryLayers demoProjectFeatures
    "project_areas" "project_points" "project_lines"
    (by decide) (by decide) (by decide)
    (by decide)
    (by decide) (by decide) (by decide)
    (by decide)
    (by decide)
  refine ⟨h.1, ?_, ?_⟩
  · exact h.2 ⟨some 1, some "Polygon", some "rp1", some "Point"⟩ (by decide)
      1 "Polygon" rfl (by decide) rfl (by decide)
  · exact h.2 ⟨some 3, some "Line", some "rp3", some "Point"⟩ (by decide)
      3 "Line" rfl (by decide) rfl (by decide)

end ProjectZeno
